import Mathlib

/-!
Shallow embedding of the EEG relay core of `src/MandalaMind/server/services/neurosky.ts`
and the fan-out hub of `src/MandalaMind/server/routes.ts`.

The adapter (`NeuroSkyService`) is modelled as a record of its mutable fields
together with step functions for each public operation (`connect`, `disconnect`,
`enableDemoMode`, `disableDemoMode`) and for each asynchronous event handler the
code registers on its WebSocket (`open`, `close`, `error`, `message`).  Numbers
carried by messages are modelled as rationals (the JavaScript arithmetic used on
them — `level * 100 / 200`, `||` with numeric operands — is exact on these values).
Timer handles (`reconnectInterval`, `demoInterval`) are modelled by Booleans
recording whether the field holds a live handle; in addition the embedding counts
sockets and intervals that the code overwrites without clearing
(`leakedSockets`, `leakedDemoIntervals`), since those remain active at runtime
even though the service no longer references them.
-/

namespace Fecart

/-- Canonical reading shape (`BrainwaveData` of `@shared/schema`): all four
fields are always present. -/
structure BrainwaveData where
  attention : ℚ
  meditation : ℚ
  signalQuality : ℚ
  timestamp : ℤ
  deriving DecidableEq, Repr

/-- The `eSense` sub-object of an inbound ThinkGear message; either numeric
field may be absent. -/
structure ESense where
  attention : Option ℚ
  meditation : Option ℚ
  deriving DecidableEq, Repr

/-- A parsed inbound ThinkGear JSON message.  `none` models an absent
(`undefined`) property. -/
structure TGMessage where
  eSense : Option ESense
  poorSignalLevel : Option ℚ
  blinkStrength : Option ℚ
  rawEeg : Option ℚ
  deriving DecidableEq, Repr

/-- Events emitted by the adapter (`this.emit(...)` calls). -/
inductive Evt where
  | connected
  | disconnected
  | error
  | data (d : BrainwaveData)
  | blink (strength : ℚ)
  | rawEeg (value : ℚ)
  deriving DecidableEq, Repr

/-- JavaScript `a || b` on an optional numeric `a`: `undefined` and `0` are
falsy, every other number is truthy. -/
def jsOr (a : Option ℚ) (b : ℚ) : ℚ :=
  match a with
  | none => b
  | some v => if v = 0 then b else v

/-- The poor-signal inversion of `handleThinkGearMessage`:
`Math.max(0, 100 - (poorSignalLevel * 100 / 200))`. -/
def signalQualityOf (level : ℚ) : ℚ :=
  max 0 (100 - level * 100 / 200)

/-- `data.attention` as computed by `handleThinkGearMessage`: defined exactly
when `message.eSense` is truthy, in which case it is
`message.eSense.attention || 0`. -/
def obsAttention (m : TGMessage) : Option ℚ :=
  m.eSense.map (fun e => jsOr e.attention 0)

/-- `data.meditation` as computed by `handleThinkGearMessage`. -/
def obsMeditation (m : TGMessage) : Option ℚ :=
  m.eSense.map (fun e => jsOr e.meditation 0)

/-- `data.signalQuality` as computed by `handleThinkGearMessage`: defined
exactly when `message.poorSignalLevel !== undefined`. -/
def obsSignal (m : TGMessage) : Option ℚ :=
  m.poorSignalLevel.map signalQualityOf

/-- The guard `data.attention !== undefined || data.meditation !== undefined ||
data.signalQuality !== undefined` deciding whether a reading is built and
emitted. -/
def emitCondition (m : TGMessage) : Bool :=
  (obsAttention m).isSome || (obsMeditation m).isSome || (obsSignal m).isSome

/-- The reading object built by `handleThinkGearMessage` when `emitCondition`
holds: each field is `data.f || this.currentData?.f || 0`. -/
def mergeReading (cur : Option BrainwaveData) (m : TGMessage) (now : ℤ) :
    BrainwaveData :=
  { attention := jsOr (obsAttention m) (jsOr (cur.map BrainwaveData.attention) 0),
    meditation := jsOr (obsMeditation m) (jsOr (cur.map BrainwaveData.meditation) 0),
    signalQuality := jsOr (obsSignal m) (jsOr (cur.map BrainwaveData.signalQuality) 0),
    timestamp := now }

/-- The `blink` event emitted when `message.blinkStrength` is truthy. -/
def blinkEvts (m : TGMessage) : List Evt :=
  match m.blinkStrength with
  | some s => if s = 0 then [] else [Evt.blink s]
  | none => []

/-- The `rawEeg` event emitted when `message.rawEeg` is truthy. -/
def rawEvts (m : TGMessage) : List Evt :=
  match m.rawEeg with
  | some v => if v = 0 then [] else [Evt.rawEeg v]
  | none => []

/-- `NeuroSkyService.handleThinkGearMessage`: given the previous
`this.currentData` and a parsed message, return the new `currentData` and the
events emitted, in emission order. -/
def handleThinkGearMessage (cur : Option BrainwaveData) (m : TGMessage)
    (now : ℤ) : Option BrainwaveData × List Evt :=
  if emitCondition m then
    (some (mergeReading cur m now),
      Evt.data (mergeReading cur m now) :: (blinkEvts m ++ rawEvts m))
  else
    (cur, blinkEvts m ++ rawEvts m)

/-- `NeuroSkyConfig` after the constructor merged the caller's partial config
over the defaults. -/
structure NeuroSkyConfig where
  port : String
  baudRate : ℕ
  autoConnect : Bool
  demoMode : Bool
  deriving DecidableEq, Repr

/-- The defaults spread in the constructor. -/
def defaultConfig : NeuroSkyConfig :=
  { port := "/dev/ttyUSB0", baudRate := 9600, autoConnect := false,
    demoMode := false }

/-- Connection state of the WebSocket currently referenced by `this.socket`. -/
inductive SockConn where
  | connecting
  | opened
  | closed
  deriving DecidableEq, Repr

/-- The mutable fields of a `NeuroSkyService` instance, plus counters for
sockets and demo intervals the code overwrote without clearing (they stay
active at runtime but are unreachable from the service). -/
structure NeuroSkyState where
  socket : Option SockConn
  isConnected : Bool
  reconnectInterval : Bool
  currentData : Option BrainwaveData
  demoInterval : Bool
  isDemoMode : Bool
  config : NeuroSkyConfig
  leakedSockets : ℕ
  leakedDemoIntervals : ℕ
  deriving DecidableEq, Repr

/-- `new NeuroSkyService(cfg)` where `cfg` is the already-merged config. -/
def mkNeuroSkyService (cfg : NeuroSkyConfig) : NeuroSkyState :=
  { socket := none, isConnected := false, reconnectInterval := false,
    currentData := none, demoInterval := false, isDemoMode := cfg.demoMode,
    config := cfg, leakedSockets := 0, leakedDemoIntervals := 0 }

/-- The instance built in `routes.ts`:
`new NeuroSkyService({ autoConnect: false })`. -/
def initAdapter : NeuroSkyState :=
  mkNeuroSkyService { defaultConfig with autoConnect := false }

/-- Whether the referenced socket's upstream connection is still live
(connecting or open). -/
def socketActive (s : NeuroSkyState) : Bool :=
  match s.socket with
  | some SockConn.closed => false
  | some _ => true
  | none => false

/-- `NeuroSkyService.startDemoMode`: marks the adapter connected, emits
`connected`, and assigns a fresh interval handle to `this.demoInterval`; a
previously running interval is overwritten without `clearInterval`, so it keeps
ticking (counted in `leakedDemoIntervals`). -/
def startDemoMode (s : NeuroSkyState) : NeuroSkyState × List Evt :=
  ({ s with
      isConnected := true,
      leakedDemoIntervals :=
        s.leakedDemoIntervals + (if s.demoInterval then 1 else 0),
      demoInterval := true },
    [Evt.connected])

/-- `NeuroSkyService.connect`: in demo mode it runs `startDemoMode` and
resolves; otherwise it assigns a fresh WebSocket to `this.socket` (overwriting,
without `close()`, any socket already there — counted in `leakedSockets`),
registers the event handlers, and resolves.  The returned `Except` is the
promise: `Except.ok` = resolved; it would reject only if the constructor threw
synchronously, which the fixed URL never does. -/
def connect (s : NeuroSkyState) : NeuroSkyState × List Evt × Except String Unit :=
  if s.isDemoMode then
    let r := startDemoMode s
    (r.1, r.2, Except.ok ())
  else
    ({ s with
        leakedSockets := s.leakedSockets + (if socketActive s then 1 else 0),
        socket := some SockConn.connecting },
      [], Except.ok ())

/-- `NeuroSkyService.disconnect`: clears the reconnect timer and the referenced
demo interval, closes and drops the referenced socket, and resets
`isConnected` and `isDemoMode`.  `config.demoMode` is untouched, as are leaked
sockets/intervals (the code holds no reference to them). -/
def disconnect (s : NeuroSkyState) : NeuroSkyState :=
  { s with
      reconnectInterval := false,
      demoInterval := false,
      socket := none,
      isConnected := false,
      isDemoMode := false }

/-- `NeuroSkyService.enableDemoMode`: sets the two mode flags and nothing
else. -/
def enableDemoMode (s : NeuroSkyState) : NeuroSkyState :=
  { s with isDemoMode := true, config := { s.config with demoMode := true } }

/-- `NeuroSkyService.disableDemoMode`: clears both mode flags and the demo
interval, then calls `disconnect()`. -/
def disableDemoMode (s : NeuroSkyState) : NeuroSkyState :=
  disconnect
    { s with
        isDemoMode := false,
        config := { s.config with demoMode := false },
        demoInterval := false }

/-- The socket `open` handler registered in `connect`: marks the adapter
connected (and sends the format config upstream, not modelled) and emits
`connected`. -/
def onSocketOpen (s : NeuroSkyState) : NeuroSkyState × List Evt :=
  match s.socket with
  | some SockConn.connecting =>
      ({ s with socket := some SockConn.opened, isConnected := true },
        [Evt.connected])
  | _ => (s, [])

/-- The socket `close` handler registered in `connect`: marks the adapter
disconnected, emits `disconnected`, and — only when `config.autoConnect` is
set — schedules a reconnect timer via `scheduleReconnect`. -/
def onSocketClose (s : NeuroSkyState) : NeuroSkyState × List Evt :=
  match s.socket with
  | some _ =>
      ({ s with
          socket := some SockConn.closed,
          isConnected := false,
          reconnectInterval :=
            if s.config.autoConnect then true else s.reconnectInterval },
        [Evt.disconnected])
  | none => (s, [])

/-- The socket `error` handler registered in `connect`: emits `error` and
changes no state. -/
def onSocketError (s : NeuroSkyState) : NeuroSkyState × List Evt :=
  (s, [Evt.error])

/-- The socket `message` handler registered in `connect`: parses the payload
(malformed payloads are dropped before this point) and runs
`handleThinkGearMessage`. -/
def onSocketMessage (s : NeuroSkyState) (m : TGMessage) (now : ℤ) :
    NeuroSkyState × List Evt :=
  let r := handleThinkGearMessage s.currentData m now
  ({ s with currentData := r.1 }, r.2)

/-- Number of simultaneously active upstream connections: the referenced
socket while live, every leaked socket, the referenced demo generator, and
every leaked demo generator. -/
def activeUpstream (s : NeuroSkyState) : ℕ :=
  (if socketActive s then 1 else 0) + s.leakedSockets
    + (if s.demoInterval then 1 else 0) + s.leakedDemoIntervals

/-- The four public operations named by the lifecycle claims. -/
inductive Op where
  | connect
  | disconnect
  | enableDemoMode
  | disableDemoMode
  deriving DecidableEq, Repr

/-- One public operation applied to the adapter state. -/
def step (s : NeuroSkyState) : Op → NeuroSkyState
  | Op.connect => (connect s).1
  | Op.disconnect => disconnect s
  | Op.enableDemoMode => enableDemoMode s
  | Op.disableDemoMode => disableDemoMode s

/-- A sequence of public operations applied in order. -/
def runSeq (s : NeuroSkyState) (ops : List Op) : NeuroSkyState :=
  ops.foldl step s

/-! ## Lifecycle theorems -/

/-- C1: the claim says at most one upstream connection (real socket or demo
generator) is ever active, and in particular that `connect()` never yields two
simultaneously active upstream connections.  Evaluating the code at the failing
input refutes this: on a fresh live-mode adapter, `connect(); connect()` leaves
two active upstream connections, because the second `connect` assigns a new
WebSocket to `this.socket` without closing the first. -/
theorem c1_connect_twice_two_active_connections :
    activeUpstream (runSeq initAdapter [Op.connect, Op.connect]) = 2 := by
  decide

/-- A live, fully open connection: fresh adapter, `connect()`, then the
socket's `open` event. -/
def liveOpenState : NeuroSkyState :=
  (onSocketOpen (connect initAdapter).1).1

/-- C3 counterexample: from a state with a live open socket
(`socketActive = true`, `isConnected = true`), `enableDemoMode()` leaves the
socket open and active and starts no generator — it does not close the live
connection as the claim states. -/
theorem c3_enableDemoMode_leaves_live_socket_open :
    socketActive liveOpenState = true ∧
    liveOpenState.isConnected = true ∧
    (enableDemoMode liveOpenState).socket = some SockConn.opened ∧
    socketActive (enableDemoMode liveOpenState) = true ∧
    (enableDemoMode liveOpenState).demoInterval = false := by
  decide

/-- C3 amended: `enableDemoMode()` only sets the two demo-mode flags; it
neither closes a live socket nor starts the synthetic generator, and the set of
active upstream connections is unchanged.  The live connection is closed only
by a later `disconnect()` or `disableDemoMode()`. -/
theorem c3_enableDemoMode_only_sets_flags (s : NeuroSkyState) :
    (enableDemoMode s).socket = s.socket ∧
    (enableDemoMode s).isConnected = s.isConnected ∧
    (enableDemoMode s).demoInterval = s.demoInterval ∧
    (enableDemoMode s).reconnectInterval = s.reconnectInterval ∧
    (enableDemoMode s).currentData = s.currentData ∧
    (enableDemoMode s).isDemoMode = true ∧
    (enableDemoMode s).config.demoMode = true ∧
    activeUpstream (enableDemoMode s) = activeUpstream s :=
  ⟨rfl, rfl, rfl, rfl, rfl, rfl, rfl, rfl⟩

/-- C6: `disconnect()` is idempotent from every state — applying it twice
equals applying it once — and it always leaves the adapter disconnected with no
reconnect timer, no referenced demo interval, and no referenced socket.  When
the state carries no leaked (overwritten-but-uncleared) socket or interval —
which covers every state named by the claim: never connected, connected live,
in demo mode, already disconnected — no upstream connection at all remains
active afterwards. -/
theorem c6_disconnect_idempotent (s : NeuroSkyState)
    (hs : s.leakedSockets = 0) (hd : s.leakedDemoIntervals = 0) :
    disconnect (disconnect s) = disconnect s ∧
    (disconnect s).isConnected = false ∧
    (disconnect s).reconnectInterval = false ∧
    (disconnect s).demoInterval = false ∧
    (disconnect s).socket = none ∧
    activeUpstream (disconnect s) = 0 := by
  refine ⟨rfl, rfl, rfl, rfl, rfl, ?_⟩
  simp [activeUpstream, disconnect, socketActive, hs, hd]

/-- A connected demo-mode state: fresh adapter, `enableDemoMode()`, then
`connect()`. -/
def demoConnectedState : NeuroSkyState :=
  runSeq initAdapter [Op.enableDemoMode, Op.connect]

/-- C6 witness: the idempotence theorem applied to the concrete connected
demo-mode state. -/
theorem c6_disconnect_idempotent_witness :
    disconnect (disconnect demoConnectedState) = disconnect demoConnectedState ∧
    (disconnect demoConnectedState).isConnected = false ∧
    (disconnect demoConnectedState).reconnectInterval = false ∧
    (disconnect demoConnectedState).demoInterval = false ∧
    (disconnect demoConnectedState).socket = none ∧
    activeUpstream (disconnect demoConnectedState) = 0 :=
  c6_disconnect_idempotent demoConnectedState (by decide) (by decide)

/-- C10: `disconnect()` resets the instance demo-mode flag `isDemoMode` to
`false` (it leaves `config.demoMode` alone, but `connect()` only consults
`isDemoMode`), so from every state — including states where demo mode had been
enabled and never disabled — a `connect()` issued after `disconnect()` takes
the live branch: it creates a real socket, starts no generator, and emits no
immediate `connected` event (the demo branch would emit one). -/
theorem c10_disconnect_resets_demo_flag (s : NeuroSkyState) :
    (disconnect s).isDemoMode = false ∧
    (connect (disconnect s)).1.socket = some SockConn.connecting ∧
    (connect (disconnect s)).1.demoInterval = false ∧
    (connect (disconnect s)).2.1 = [] :=
  ⟨rfl, rfl, rfl, rfl⟩

/-! ## Signal-quality mapping -/

/-- C5: on the domain 0–200 the poor-signal inversion
`quality(level) = max(0, 100 - level*100/200)` is monotonically decreasing
(indeed strictly), with `quality(0) = 100` and `quality(200) = 0`. -/
theorem c5_signalQuality_antitone (l₁ l₂ : ℚ)
    (h₀ : 0 ≤ l₁) (h₁₂ : l₁ ≤ l₂) (h₂ : l₂ ≤ 200) :
    signalQualityOf l₂ ≤ signalQualityOf l₁ ∧
    (l₁ < l₂ → signalQualityOf l₂ < signalQualityOf l₁) ∧
    signalQualityOf 0 = 100 ∧
    signalQualityOf 200 = 0 := by
  refine ⟨?_, ?_, ?_, ?_⟩
  · exact max_le_max le_rfl (by linarith)
  · intro hlt
    have hq₁ : signalQualityOf l₁ = 100 - l₁ * 100 / 200 := by
      unfold signalQualityOf
      exact max_eq_right (by linarith)
    rw [hq₁]
    refine max_lt (by linarith) (by linarith)
  · unfold signalQualityOf
    norm_num
  · unfold signalQualityOf
    norm_num

/-- C5 witness: the mapping theorem applied at levels 50 and 100. -/
theorem c5_signalQuality_antitone_witness :
    signalQualityOf 100 ≤ signalQualityOf 50 ∧
    ((50 : ℚ) < 100 → signalQualityOf 100 < signalQualityOf 50) ∧
    signalQualityOf 0 = 100 ∧
    signalQualityOf 200 = 0 :=
  c5_signalQuality_antitone 50 100 (by norm_num) (by norm_num) (by norm_num)

/-! ## Merge semantics of partial messages (C2) -/

/-- Fold `handleThinkGearMessage` over a message sequence starting from a given
`currentData` (timestamps are irrelevant to the merged fields and fixed at 0). -/
def handleAllFrom (cur : Option BrainwaveData) (msgs : List TGMessage) :
    Option BrainwaveData :=
  msgs.foldl (fun c m => (handleThinkGearMessage c m 0).1) cur

/-- Fold `handleThinkGearMessage` over a message sequence from the initial
(`null`) `currentData`. -/
def handleAll (msgs : List TGMessage) : Option BrainwaveData :=
  handleAllFrom none msgs

/-- Modelled from the spec claim's words: the most recently observed value of a
field across a message sequence (`none` if the field was never observed). -/
def specLastObserved (obs : TGMessage → Option ℚ) (msgs : List TGMessage) :
    Option ℚ :=
  msgs.foldl (fun acc m => match obs m with | some v => some v | none => acc) none

/-- One step of the field semantics the code actually implements: a newly
observed nonzero value replaces the accumulator; an observed zero, or no
observation, keeps it. -/
def specStep (acc : ℚ) (o : Option ℚ) : ℚ :=
  match o with
  | some v => if v = 0 then acc else v
  | none => acc

/-- `specStep` folded over a message sequence from a given start value. -/
def specFoldFrom (obs : TGMessage → Option ℚ) (a : ℚ) (msgs : List TGMessage) : ℚ :=
  msgs.foldl (fun acc m => specStep acc (obs m)) a

/-- The most recently observed nonzero value of a field across a message
sequence, or 0 if no nonzero value was ever observed. -/
def specLastNonzero (obs : TGMessage → Option ℚ) (msgs : List TGMessage) : ℚ :=
  specFoldFrom obs 0 msgs

/-- The attention field carried by a `currentData` value, defaulting to 0. -/
def attOf (cur : Option BrainwaveData) : ℚ :=
  (cur.map BrainwaveData.attention).getD 0

/-- The meditation field carried by a `currentData` value, defaulting to 0. -/
def medOf (cur : Option BrainwaveData) : ℚ :=
  (cur.map BrainwaveData.meditation).getD 0

/-- The signal-quality field carried by a `currentData` value, defaulting to 0. -/
def sigOf (cur : Option BrainwaveData) : ℚ :=
  (cur.map BrainwaveData.signalQuality).getD 0

theorem jsOr_zero (a : Option ℚ) : jsOr a 0 = a.getD 0 := by
  cases a with
  | none => rfl
  | some v =>
      by_cases h : v = 0 <;> simp [jsOr, h]

theorem jsOr_spec (a : Option ℚ) (b : ℚ) : jsOr a b = specStep b a := by
  cases a <;> rfl

theorem merge_field (o p : Option ℚ) :
    jsOr o (jsOr p 0) = specStep (p.getD 0) o := by
  rw [jsOr_zero, jsOr_spec]

theorem handle_step_fields (cur : Option BrainwaveData) (m : TGMessage) (now : ℤ) :
    attOf (handleThinkGearMessage cur m now).1 = specStep (attOf cur) (obsAttention m) ∧
    medOf (handleThinkGearMessage cur m now).1 = specStep (medOf cur) (obsMeditation m) ∧
    sigOf (handleThinkGearMessage cur m now).1 = specStep (sigOf cur) (obsSignal m) := by
  by_cases h : emitCondition m = true
  · refine ⟨?_, ?_, ?_⟩ <;>
      simp only [handleThinkGearMessage, h, if_true, attOf, medOf, sigOf,
        Option.map_some', Option.getD_some, mergeReading, merge_field]
  · have h' : emitCondition m = false := by
      simpa using h
    have hA : obsAttention m = none := by
      cases ho : obsAttention m with
      | none => rfl
      | some v =>
          exfalso
          rw [emitCondition, ho] at h'
          simp at h'
    have hM : obsMeditation m = none := by
      cases ho : obsMeditation m with
      | none => rfl
      | some v =>
          exfalso
          rw [emitCondition, ho] at h'
          simp at h'
    have hS : obsSignal m = none := by
      cases ho : obsSignal m with
      | none => rfl
      | some v =>
          exfalso
          rw [emitCondition, ho] at h'
          simp at h'
    refine ⟨?_, ?_, ?_⟩ <;>
      simp [handleThinkGearMessage, h', hA, hM, hS, specStep]

theorem handleAllFrom_fields (msgs : List TGMessage) :
    ∀ cur : Option BrainwaveData,
      attOf (handleAllFrom cur msgs) = specFoldFrom obsAttention (attOf cur) msgs ∧
      medOf (handleAllFrom cur msgs) = specFoldFrom obsMeditation (medOf cur) msgs ∧
      sigOf (handleAllFrom cur msgs) = specFoldFrom obsSignal (sigOf cur) msgs := by
  induction msgs with
  | nil => exact fun cur => ⟨rfl, rfl, rfl⟩
  | cons m ms ih =>
      intro cur
      have hstep := handle_step_fields cur m 0
      have hrec := ih (handleThinkGearMessage cur m 0).1
      refine ⟨?_, ?_, ?_⟩
      · show attOf (handleAllFrom (handleThinkGearMessage cur m 0).1 ms) =
          specFoldFrom obsAttention (specStep (attOf cur) (obsAttention m)) ms
        rw [← hstep.1]
        exact hrec.1
      · show medOf (handleAllFrom (handleThinkGearMessage cur m 0).1 ms) =
          specFoldFrom obsMeditation (specStep (medOf cur) (obsMeditation m)) ms
        rw [← hstep.2.1]
        exact hrec.2.1
      · show sigOf (handleAllFrom (handleThinkGearMessage cur m 0).1 ms) =
          specFoldFrom obsSignal (specStep (sigOf cur) (obsSignal m)) ms
        rw [← hstep.2.2]
        exact hrec.2.2

/-- First counterexample message: `eSense` carries attention 50, meditation 50. -/
def c2msgA : TGMessage :=
  { eSense := some { attention := some 50, meditation := some 50 },
    poorSignalLevel := none, blinkStrength := none, rawEeg := none }

/-- Second counterexample message: `eSense` carries attention 0, meditation 30. -/
def c2msgB : TGMessage :=
  { eSense := some { attention := some 0, meditation := some 30 },
    poorSignalLevel := none, blinkStrength := none, rawEeg := none }

/-- C2 counterexample: after the messages (attention 50, then attention 0),
the most recently observed attention is 0, but the emitted reading's attention
is 50 — the `||` merge treats an observed 0 as missing, so the field does not
reflect the most recently observed value. -/
theorem c2_counterexample :
    specLastObserved obsAttention [c2msgA, c2msgB] = some 0 ∧
    (handleAll [c2msgA, c2msgB]).map BrainwaveData.attention = some 50 := by
  decide

/-- C2 amended: for every sequence of partial inbound live-mode messages, each
field of the retained/emitted reading equals the most recently observed
*nonzero* value of that field across all messages so far (a field observed as
0 — or a `poorSignalLevel` mapping to quality 0 — does not overwrite the prior
value), defaulting to 0 if no nonzero value was ever observed.  No field is
ever missing from an emitted reading (every `BrainwaveData` carries all four
fields by construction). -/
theorem c2_fields_last_nonzero (msgs : List TGMessage) :
    attOf (handleAll msgs) = specLastNonzero obsAttention msgs ∧
    medOf (handleAll msgs) = specLastNonzero obsMeditation msgs ∧
    sigOf (handleAll msgs) = specLastNonzero obsSignal msgs :=
  handleAllFrom_fields msgs none

/-! ## Connection-failure behaviour (C4) -/

/-- C4 counterexample: on a fresh live-mode adapter, `connect()` resolves
(`Except.ok`) as soon as the handlers are registered; when the connection
attempt then fails (the socket's `error` event), the adapter emits `error` but
the already-resolved promise cannot reject — refuting the claim that the
promise returned by `connect()` rejects on connection failure.  No retry is
scheduled either (`reconnectInterval` stays clear, `autoConnect` being off). -/
theorem c4_counterexample :
    initAdapter.isDemoMode = false ∧
    (connect initAdapter).2.2 = Except.ok () ∧
    (onSocketError (connect initAdapter).1).2 = [Evt.error] ∧
    (onSocketError (connect initAdapter).1).1.reconnectInterval = false :=
  ⟨rfl, rfl, rfl, rfl⟩

/-- C4 amended: when `connect()` is called in live mode, the returned promise
resolves once the socket handlers are installed (it could reject only on a
synchronous constructor throw, which the fixed URL never causes); a subsequent
connection failure emits an `error` event and changes no adapter state, and no
retry is scheduled by the failure itself — a reconnect timer is set only when
the socket's `close` event fires with `autoConnect` enabled in the
configuration. -/
theorem c4_connect_resolves_and_emits_error (s : NeuroSkyState)
    (h : s.isDemoMode = false) :
    (connect s).2.2 = Except.ok () ∧
    (onSocketError (connect s).1).2 = [Evt.error] ∧
    (onSocketError (connect s).1).1 = (connect s).1 ∧
    (connect s).1.reconnectInterval = s.reconnectInterval ∧
    (s.config.autoConnect = false →
      (onSocketClose (connect s).1).1.reconnectInterval = s.reconnectInterval) ∧
    (s.config.autoConnect = true →
      (onSocketClose (connect s).1).1.reconnectInterval = true) := by
  have hc : connect s =
      ({ s with
          leakedSockets := s.leakedSockets + (if socketActive s then 1 else 0),
          socket := some SockConn.connecting },
        [], Except.ok ()) := by
    simp [connect, h]
  refine ⟨?_, ?_, ?_, ?_, ?_, ?_⟩
  · rw [hc]
  · rw [hc]
    rfl
  · rw [hc]
    rfl
  · rw [hc]
  · intro ha
    rw [hc]
    simp [onSocketClose, ha]
  · intro ha
    rw [hc]
    simp [onSocketClose, ha]

/-- C4 witness: the amended theorem applied to the concrete adapter instance
of `routes.ts` (live mode, `autoConnect: false`). -/
theorem c4_connect_resolves_witness :
    (connect initAdapter).2.2 = Except.ok () ∧
    (onSocketError (connect initAdapter).1).2 = [Evt.error] ∧
    (onSocketError (connect initAdapter).1).1 = (connect initAdapter).1 ∧
    (connect initAdapter).1.reconnectInterval = initAdapter.reconnectInterval ∧
    (initAdapter.config.autoConnect = false →
      (onSocketClose (connect initAdapter).1).1.reconnectInterval =
        initAdapter.reconnectInterval) ∧
    (initAdapter.config.autoConnect = true →
      (onSocketClose (connect initAdapter).1).1.reconnectInterval = true) :=
  c4_connect_resolves_and_emits_error initAdapter rfl

/-! ## Availability probe (C7) -/

/-- The three outcomes the probe's handlers react to. -/
inductive ProbeOutcome where
  | opened
  | errored
  | timedOut
  deriving DecidableEq, Repr

/-- What a probe run produces: the Boolean passed to `resolve` (the promise
only ever resolves — there is no reject path, which this total record type
models), whether the handler called `testSocket.close()`, and whether it called
`clearTimeout`. -/
structure ProbeResult where
  resolved : Bool
  socketClosed : Bool
  timeoutCleared : Bool
  deriving DecidableEq, Repr

/-- `NeuroSkyService.checkThinkGearConnector`, per outcome of the probe
connection: the `open` handler clears the timeout, closes the socket and
resolves `true`; the `error` handler clears the timeout and resolves `false`
without closing; the 3-second timeout closes the socket and resolves
`false`. -/
def checkThinkGearConnector : ProbeOutcome → ProbeResult
  | ProbeOutcome.opened =>
      { resolved := true, socketClosed := true, timeoutCleared := true }
  | ProbeOutcome.errored =>
      { resolved := false, socketClosed := false, timeoutCleared := true }
  | ProbeOutcome.timedOut =>
      { resolved := false, socketClosed := true, timeoutCleared := false }

/-- C7 counterexample: on the error outcome the probe resolves `false` but its
handler never calls `testSocket.close()` — refuting the claim that the probe
closes the connection in each of the three outcomes. -/
theorem c7_counterexample :
    (checkThinkGearConnector ProbeOutcome.errored).resolved = false ∧
    (checkThinkGearConnector ProbeOutcome.errored).socketClosed = false := by
  decide

/-- C7 amended: the probe always resolves a Boolean within the bounded timeout
and never rejects (every outcome yields a resolution, `true` exactly on open),
and it closes the probe connection on the open and timeout outcomes; the error
handler resolves `false` without calling `close()`. -/
theorem c7_probe_resolves (o : ProbeOutcome) :
    ((checkThinkGearConnector o).resolved = true ↔ o = ProbeOutcome.opened) ∧
    ((checkThinkGearConnector o).socketClosed = false ↔ o = ProbeOutcome.errored) := by
  cases o <;> exact ⟨by decide, by decide⟩

/-! ## Fan-out hub (C8) -/

/-- `WebSocket.OPEN` of the `ws` library. -/
def WS_OPEN : ℕ := 1

/-- A subscriber in the hub's `clients` set: an identity, the channel's
`readyState`, and the payloads delivered to it so far. -/
structure Client where
  id : ℕ
  readyState : ℕ
  received : List String
  deriving DecidableEq, Repr

/-- The `broadcast` function of `routes.ts`: serialize the event once
(`JSON.stringify`, modelled by the supplied `serialize`), then send that one
string to every client whose `readyState` is `OPEN`, leaving every other
client untouched and in the set. -/
def broadcast {α : Type} (serialize : α → String) (ev : α)
    (clients : List Client) : List Client :=
  let message := serialize ev
  clients.map (fun c =>
    if c.readyState = WS_OPEN then { c with received := c.received ++ [message] }
    else c)

/-- C8: `broadcast` preserves the subscriber set (same length, each position
either delivered-to or untouched); every subscriber whose channel is open
receives exactly the one serialized payload `serialize ev`, and every
subscriber whose channel is not open is skipped silently — unchanged and not
removed (the model is a total function: no error is surfaced). -/
theorem c8_broadcast_delivers {α : Type} (serialize : α → String) (ev : α)
    (clients : List Client) (i : ℕ) (c : Client) (h : clients[i]? = some c) :
    (broadcast serialize ev clients).length = clients.length ∧
    (c.readyState = WS_OPEN →
      (broadcast serialize ev clients)[i]? =
        some { c with received := c.received ++ [serialize ev] }) ∧
    (c.readyState ≠ WS_OPEN →
      (broadcast serialize ev clients)[i]? = some c) := by
  refine ⟨List.length_map _ _, ?_, ?_⟩
  · intro hopen
    simp [broadcast, List.getElem?_map, h, hopen]
  · intro hclosed
    simp [broadcast, List.getElem?_map, h, hclosed]

/-- First witness subscriber: open channel. -/
def clientA : Client := { id := 1, readyState := 1, received := [] }

/-- Second witness subscriber: open channel. -/
def clientB : Client := { id := 2, readyState := 1, received := [] }

/-- Third witness subscriber: already disconnected (`readyState` CLOSED). -/
def clientC : Client := { id := 3, readyState := 3, received := [] }

/-- The witness subscriber set. -/
def c8clients : List Client := [clientA, clientB, clientC]

/-- The witness event payload. -/
def c8event : String := "eeg_data"

/-- C8 witness: the broadcast theorem applied at position 0 (an open
subscriber) of the concrete three-subscriber set. -/
theorem c8_broadcast_delivers_witness :
    (broadcast id c8event c8clients).length = c8clients.length ∧
    (clientA.readyState = WS_OPEN →
      (broadcast id c8event c8clients)[0]? =
        some { clientA with received := clientA.received ++ [id c8event] }) ∧
    (clientA.readyState ≠ WS_OPEN →
      (broadcast id c8event c8clients)[0]? = some clientA) :=
  c8_broadcast_delivers id c8event c8clients 0 clientA rfl

/-! ## Demo-data generator bounds (C9) -/

/-- `baseAttention` of `generateDemoData`. -/
noncomputable def baseAttention (t : ℝ) : ℝ :=
  30 + 30 * Real.sin (t * 0.01) + 15 * Real.sin (t * 0.03)

/-- `baseMeditation` of `generateDemoData`. -/
noncomputable def baseMeditation (t : ℝ) : ℝ :=
  25 + 35 * Real.cos (t * 0.008) + 20 * Real.cos (t * 0.02)

/-- The attention value produced by one demo tick at time `t` with
pseudo-random draw `r` (`Math.random()`): jittered base, rounded, clamped to
[0, 100]. -/
noncomputable def demoAttention (t r : ℝ) : ℤ :=
  max 0 (min 100 (round (baseAttention t + 10 * (r - 0.5) + 5 * Real.sin (t * 0.1))))

/-- The meditation value produced by one demo tick. -/
noncomputable def demoMeditation (t r : ℝ) : ℤ :=
  max 0 (min 100 (round (baseMeditation t + 8 * (r - 0.5) + 7 * Real.cos (t * 0.12))))

/-- The signal-quality value produced by one demo tick: higher-mean signal
clamped to [60, 100]. -/
noncomputable def demoSignalQuality (t r : ℝ) : ℤ :=
  max 60 (min 100 (round (85 + 10 * Real.sin (t * 0.005) + 5 * (r - 0.5))))

/-- C9: for every tick time and all values of the pseudo-random draws — hence
for every sequence of synthetic demo ticks, in particular any 1000 consecutive
ones — the generated attention and meditation lie in [0, 100] and the
generated signal quality lies in [60, 100]. -/
theorem c9_demo_bounds (t r₁ r₂ r₃ : ℝ) :
    0 ≤ demoAttention t r₁ ∧ demoAttention t r₁ ≤ 100 ∧
    0 ≤ demoMeditation t r₂ ∧ demoMeditation t r₂ ≤ 100 ∧
    60 ≤ demoSignalQuality t r₃ ∧ demoSignalQuality t r₃ ≤ 100 := by
  refine ⟨le_max_left _ _, ?_, le_max_left _ _, ?_, le_max_left _ _, ?_⟩ <;>
    exact max_le (by norm_num) (min_le_left _ _)

end Fecart
